import Mathlib

/-!
Verification model of the Vendure EmailPlugin dispatch core
(`src/packages/email-plugin/src/plugin.ts`).

The TypeScript class `EmailPlugin` is embedded shallowly:
* promises/`await` become sequential evaluation; a step that can throw
  returns `Except Err _`;
* the plugin's injected collaborators (`connection`, `moduleRef.get`,
  `workerService.send`, the job-queue engine's enqueue behaviour, and the
  `EmailProcessor.process` implementation) are opaque functions collected
  in `ExternalDeps`;
* the mutable instance fields `jobQueue` / `testingProcessor` /
  `devMailbox` set during `onVendureBootstrap` become explicit state
  (`Backends`, `PluginState`);
* the observable actions of one `handleEvent` call (the event object after
  the dispatch, the invocations of `handler.handle`, the delivery calls,
  and the log lines) are recorded in `DispatchEffects`, and an exception
  escaping a region is the `Option Err` component next to it.
-/

namespace EmailPluginModel

/-- A thrown JavaScript error, as observed by the catch block
(`e.message` and `e.stack`). -/
structure Err where
  message : String
  stack : String
deriving DecidableEq, Repr

/-- Opaque stand-in for `EmailPluginOptions.globalTemplateVars`. -/
abbrev GlobalVars := Nat

/-- Opaque stand-in for the `IntermediateEmailDetails` payload a handler
produces. -/
structure IntermediateEmailDetails where
  details : Nat
deriving DecidableEq, Repr

/-- The event object delivered by the event bus (`EventWithContext`),
with the optional `data` field that `handleEvent` assigns for
`EmailEventHandlerWithAsyncData` (`EventWithAsyncData`). `tag` is the
event class the bus matched; `ctx` stands for all remaining fields of the
base event. -/
structure EventWithContext where
  tag : String
  ctx : Nat
  data : Option Nat
deriving DecidableEq, Repr

/-- Argument object passed to `_loadDataFn` in `handleEvent`:
`{ event, connection, inject: t => moduleRef.get(t, strict: false) }`. -/
structure LoadDataContext where
  event : EventWithContext
  connection : Nat
  inject : String → Except Err Nat

/-- A registered handler: `EmailEventHandler` (simple) or
`EmailEventHandlerWithAsyncData` (withAsyncData). `event` is the
event class the handler reacts to (`handler.event`), `type` the type
identifier used in logging (`handler.type`). -/
inductive EmailHandler where
  | simple (event : String) (type : String)
      (handle : EventWithContext → GlobalVars → Except Err (Option IntermediateEmailDetails))
  | withAsyncData (event : String) (type : String)
      (loadDataFn : LoadDataContext → Except Err Nat)
      (handle : EventWithContext → GlobalVars → Except Err (Option IntermediateEmailDetails))

/-- `handler.event`. -/
def handlerEvent : EmailHandler → String
  | .simple ev _ _ => ev
  | .withAsyncData ev _ _ _ => ev

/-- `handler.type`. -/
def handlerType : EmailHandler → String
  | .simple _ ty _ => ty
  | .withAsyncData _ ty _ _ => ty

/-- Transport selector of non-dev options (`options.transport.type`). -/
inductive TransportType where
  | smtp
  | sendmail
  | file
  | testing
deriving DecidableEq, Repr

/-- Plugin options: `EmailPluginOptions` (normal, with a transport) or
`EmailPluginDevModeOptions` (devMode true, optional mailboxPort). -/
inductive PluginOptions where
  | normal (transport : TransportType) (handlers : List EmailHandler)
      (globalTemplateVars : GlobalVars)
  | devMode (mailboxPort : Option Nat) (handlers : List EmailHandler)
      (globalTemplateVars : GlobalVars)

/-- `isDevModeOptions(options)` from `common.ts`: true exactly for the
dev-mode options variant. -/
def isDevModeOptions : PluginOptions → Bool
  | .devMode .. => true
  | .normal .. => false

def PluginOptions.handlers : PluginOptions → List EmailHandler
  | .normal _ hs _ => hs
  | .devMode _ hs _ => hs

def PluginOptions.globalTemplateVars : PluginOptions → GlobalVars
  | .normal _ _ g => g
  | .devMode _ _ g => g

/-- `options.transport.type`; dev-mode options carry no transport. -/
def PluginOptions.transportType : PluginOptions → Option TransportType
  | .normal t _ _ => some t
  | .devMode .. => none

/-- `options.mailboxPort`; only dev-mode options may define one. -/
def PluginOptions.mailboxPort : PluginOptions → Option Nat
  | .normal .. => none
  | .devMode p _ _ => p

/-- `new EmailWorkerMessage(job.data)`. -/
structure EmailWorkerMessage where
  data : IntermediateEmailDetails
deriving DecidableEq, Repr

/-- Outcome observed from `workerService.send(...).subscribe`. -/
inductive WorkerOutcome where
  | complete
  | error (e : Err)
deriving DecidableEq, Repr

/-- Terminal state of a queue job (`job.complete()` / `job.fail(err)`). -/
inductive JobResult where
  | completed
  | failed (e : Err)
deriving DecidableEq, Repr

/-- The queue returned by `jobQueueService.createQueue`. `processCb` is the
callback the plugin supplied, recorded as the message it sends to the
worker together with the job's terminal state; `add` is the engine's
enqueue behaviour, which may fail. -/
structure JobQueue where
  name : String
  concurrency : Nat
  processCb : IntermediateEmailDetails → EmailWorkerMessage × JobResult
  add : IntermediateEmailDetails → Except Err Unit

/-- The inline `EmailProcessor` used under the testing transport. -/
structure EmailProcessor where
  process : IntermediateEmailDetails → Except Err Unit

/-- The plugin's injected collaborators, fixed for its lifetime. -/
structure ExternalDeps where
  connection : Nat
  inject : String → Except Err Nat
  workerSend : EmailWorkerMessage → WorkerOutcome
  queueAdd : IntermediateEmailDetails → Except Err Unit
  processorProcess : IntermediateEmailDetails → Except Err Unit

/-- The delivery-backend fields of the plugin instance
(`this.jobQueue`, `this.testingProcessor`). -/
structure Backends where
  jobQueue : Option JobQueue
  testingProcessor : Option EmailProcessor

/-- A delivery call made by `handleEvent`: `this.jobQueue.add(result)` or
`this.testingProcessor.process(result)`. -/
inductive Delivery where
  | queueAdd (payload : IntermediateEmailDetails)
  | inlineProcess (payload : IntermediateEmailDetails)
deriving DecidableEq, Repr

/-- Observable actions of one `handleEvent` call. `eventAfter` is the event
object when the call returns (the code mutates it in place for async-data
handlers); `handleInvocations` lists the event values `handler.handle` was
applied to; `handleResults` the values it successfully returned;
`deliveries` the delivery calls made; `debugLogs` / `errorLogs` the
`Logger.debug` lines and the `(message, stack)` pairs `Logger.error`
received. -/
structure DispatchEffects where
  eventAfter : EventWithContext
  handleInvocations : List EventWithContext
  handleResults : List (Option IntermediateEmailDetails)
  deliveries : List Delivery
  debugLogs : List String
  errorLogs : List (String × String)
deriving DecidableEq, Repr

/-- The context object built for `_loadDataFn` inside `handleEvent`. -/
def mkLoadCtx (deps : ExternalDeps) (event : EventWithContext) : LoadDataContext :=
  { event := event, connection := deps.connection, inject := deps.inject }

/-- The delivery step of `handleEvent`:
`if (this.jobQueue) await this.jobQueue.add(result)
 else if (this.testingProcessor) await this.testingProcessor.process(result)`.
Returns the delivery calls made and the exception, if the call threw. -/
def deliverResult (b : Backends) (result : IntermediateEmailDetails) :
    List Delivery × Option Err :=
  match b.jobQueue with
  | some q =>
    ([.queueAdd result],
      match q.add result with
      | .ok _ => none
      | .error e => some e)
  | none =>
    match b.testingProcessor with
    | some tp =>
      ([.inlineProcess result],
        match tp.process result with
        | .ok _ => none
        | .error e => some e)
    | none => ([], none)

/-- The tail of `handleEvent`'s try block once the (possibly enriched)
event is fixed: `const result = await handler.handle(event, gvars);
if (!result) return; <deliver>`. -/
def runHandleAndDeliver (opts : PluginOptions) (b : Backends)
    (handleFn : EventWithContext → GlobalVars → Except Err (Option IntermediateEmailDetails))
    (event2 : EventWithContext) : DispatchEffects × Option Err :=
  match handleFn event2 opts.globalTemplateVars with
  | .error e =>
    ({ eventAfter := event2, handleInvocations := [event2], handleResults := [],
       deliveries := [], debugLogs := [], errorLogs := [] }, some e)
  | .ok none =>
    ({ eventAfter := event2, handleInvocations := [event2], handleResults := [none],
       deliveries := [], debugLogs := [], errorLogs := [] }, none)
  | .ok (some result) =>
    ({ eventAfter := event2, handleInvocations := [event2], handleResults := [some result],
       deliveries := (deliverResult b result).1, debugLogs := [], errorLogs := [] },
     (deliverResult b result).2)

/-- The try block of `handleEvent` (lines 235-251): load async data if the
handler is the withAsyncData variant, assigning `event.data`; then invoke
the handler and deliver. The `Option Err` is the exception escaping the
try block, if any. -/
def handleEventTry (opts : PluginOptions) (deps : ExternalDeps) (b : Backends)
    (handler : EmailHandler) (event : EventWithContext) : DispatchEffects × Option Err :=
  match handler with
  | .simple _ _ handleFn => runHandleAndDeliver opts b handleFn event
  | .withAsyncData _ _ loadFn handleFn =>
    match loadFn (mkLoadCtx deps event) with
    | .error e =>
      ({ eventAfter := event, handleInvocations := [], handleResults := [],
         deliveries := [], debugLogs := [], errorLogs := [] }, some e)
    | .ok d =>
      runHandleAndDeliver opts b handleFn { event with data := some d }

/-- `EmailPlugin.handleEvent` (lines 229-255): the debug log, the try
block, and the catch block `Logger.error(e.message, 'EmailPlugin',
e.stack)`. The second component is the exception escaping `handleEvent`
itself. -/
def handleEvent (opts : PluginOptions) (deps : ExternalDeps) (b : Backends)
    (handler : EmailHandler) (event : EventWithContext) : DispatchEffects × Option Err :=
  let dbg := "Handling event \"" ++ handlerType handler ++ "\""
  match handleEventTry opts deps b handler event with
  | (eff, none) =>
    ({ eff with debugLogs := dbg :: eff.debugLogs }, none)
  | (eff, some e) =>
    ({ eff with
        debugLogs := dbg :: eff.debugLogs
        errorLogs := eff.errorLogs ++ [(e.message, e.stack)] }, none)

/-- One `eventBus.ofType(handler.event).subscribe(...)` call made by
`setupEventSubscribers`. -/
structure Subscription where
  eventType : String
  handler : EmailHandler

/-- `EmailPlugin.setupEventSubscribers` (lines 221-227): one subscription
per element of `options.handlers`. -/
def setupEventSubscribers (opts : PluginOptions) : List Subscription :=
  opts.handlers.map (fun h => { eventType := handlerEvent h, handler := h })

/-- The bootstrap condition selecting the inline testing processor:
`!isDevModeOptions(options) && options.transport.type === 'testing'`. -/
def wantsTestingProcessor (opts : PluginOptions) : Bool :=
  !isDevModeOptions opts && opts.transportType == some .testing

/-- `jobQueueService.createQueue({name, concurrency, process})`: the engine
returns a queue carrying the supplied configuration, with the engine's own
enqueue behaviour. -/
def createQueue (deps : ExternalDeps) (name : String) (concurrency : Nat)
    (processCb : IntermediateEmailDetails → EmailWorkerMessage × JobResult) : JobQueue :=
  { name := name, concurrency := concurrency, processCb := processCb, add := deps.queueAdd }

/-- The delivery-backend state `onVendureBootstrap` leaves behind
(lines 195-211): the testing processor branch or the job-queue branch.
The queue's process callback sends `new EmailWorkerMessage(job.data)` to
the worker and completes or fails the job with the worker outcome. -/
def backendsOf (deps : ExternalDeps) (opts : PluginOptions) : Backends :=
  if wantsTestingProcessor opts then
    { jobQueue := none, testingProcessor := some { process := deps.processorProcess } }
  else
    { jobQueue := some (createQueue deps "send-email" 5 (fun jobData =>
        let msg : EmailWorkerMessage := { data := jobData }
        (msg,
          match deps.workerSend msg with
          | .complete => .completed
          | .error err => .failed err))),
      testingProcessor := none }

/-- The `DevMailbox` as the plugin uses it: `serve(options)` was called,
`handleMockEvent` was given the callback routing into `handleEvent`, and
`destroy()` flips `destroyed`. -/
structure DevMailbox where
  served : Bool
  mockEventCallback : Option (EmailHandler → EventWithContext → DispatchEffects × Option Err)
  destroyed : Bool

/-- The plugin instance state after `onVendureBootstrap`. -/
structure PluginState where
  devMailbox : Option DevMailbox
  jobQueue : Option JobQueue
  testingProcessor : Option EmailProcessor
  subscriptions : List Subscription

/-- `EmailPlugin.onVendureBootstrap` (lines 184-212). The mailbox's mock
callback and the subscriptions dereference `this` when invoked, so they
see the backend fields as bootstrap leaves them. -/
def onVendureBootstrap (deps : ExternalDeps) (opts : PluginOptions) : PluginState :=
  let b := backendsOf deps opts
  let mailbox : Option DevMailbox :=
    if isDevModeOptions opts && opts.mailboxPort.isSome then
      some { served := true,
             mockEventCallback := some (fun h e => handleEvent opts deps b h e),
             destroyed := false }
    else none
  { devMailbox := mailbox,
    jobQueue := b.jobQueue,
    testingProcessor := b.testingProcessor,
    subscriptions := setupEventSubscribers opts }

/-- `EmailPlugin.onVendureClose` (lines 215-219):
`if (this.devMailbox) this.devMailbox.destroy()`. -/
def onVendureClose (st : PluginState) : PluginState :=
  match st.devMailbox with
  | some m => { st with devMailbox := some { m with destroyed := true } }
  | none => st

/-! ### Concrete fixtures used by witnesses and counterexamples -/

def sampleErr : Err := { message := "boom", stack := "trace" }

def samplePayload : IntermediateEmailDetails := { details := 7 }

def sampleEvent : EventWithContext := { tag := "order-placed", ctx := 3, data := none }

def okDeps : ExternalDeps :=
  { connection := 0, inject := fun _ => .ok 0, workerSend := fun _ => .complete,
    queueAdd := fun _ => .ok (), processorProcess := fun _ => .ok () }

def noBackends : Backends := { jobQueue := none, testingProcessor := none }

def queuedOpts : PluginOptions := .normal .smtp [] 0

def failingLoaderHandler : EmailHandler :=
  .withAsyncData "order-placed" "OrderConfirmation"
    (fun _ => .error sampleErr) (fun _ _ => .ok (some samplePayload))

def payloadHandler : EmailHandler :=
  .simple "order-placed" "OrderConfirmation" (fun _ _ => .ok (some samplePayload))

def testingOpts : PluginOptions := .normal .testing [] 0

def failTp : EmailProcessor := { process := fun _ => .error sampleErr }

def handlerA : EmailHandler := .simple "order-placed" "HandlerA" (fun _ _ => .ok none)

def handlerB : EmailHandler := .simple "order-placed" "HandlerB" (fun _ _ => .ok none)

def dupOpts : PluginOptions := .normal .smtp [handlerA, handlerB] 0

def devOpts : PluginOptions := .devMode (some 5003) [] 0

def okLoaderHandler : EmailHandler :=
  .withAsyncData "order-placed" "OrderConfirmation"
    (fun _ => .ok 42) (fun _ _ => .ok (some samplePayload))

/-! ### Helper lemmas about the dispatch pipeline -/

/-- Fields of `runHandleAndDeliver` that do not depend on the handler's
outcome: the event object is `event2` throughout, `handle` is invoked on
exactly that event, and the try block emits no error log itself. -/
theorem runHandleAndDeliver_fields (opts : PluginOptions) (b : Backends)
    (handleFn : EventWithContext → GlobalVars → Except Err (Option IntermediateEmailDetails))
    (event2 : EventWithContext) :
    (runHandleAndDeliver opts b handleFn event2).1.eventAfter = event2 ∧
    (runHandleAndDeliver opts b handleFn event2).1.handleInvocations = [event2] ∧
    (runHandleAndDeliver opts b handleFn event2).1.errorLogs = [] := by
  cases h : handleFn event2 opts.globalTemplateVars with
  | error e => simp [runHandleAndDeliver, h]
  | ok r =>
    cases r with
    | none => simp [runHandleAndDeliver, h]
    | some p => simp [runHandleAndDeliver, h]

/-- The try block of `handleEvent` never writes an error log itself: only
the catch block does. -/
theorem handleEventTry_errorLogs (opts : PluginOptions) (deps : ExternalDeps)
    (b : Backends) (handler : EmailHandler) (event : EventWithContext) :
    (handleEventTry opts deps b handler event).1.errorLogs = [] := by
  cases handler with
  | simple ev ty f =>
    simpa [handleEventTry] using (runHandleAndDeliver_fields opts b f event).2.2
  | withAsyncData ev ty loadFn f =>
    cases h : loadFn (mkLoadCtx deps event) with
    | error e => simp [handleEventTry, h]
    | ok d =>
      simpa [handleEventTry, h] using
        (runHandleAndDeliver_fields opts b f { event with data := some d }).2.2

/-- The catch block only adds logging: the dispatch actions of
`handleEvent` are those of its try block. -/
theorem handleEvent_effects (opts : PluginOptions) (deps : ExternalDeps)
    (b : Backends) (handler : EmailHandler) (event : EventWithContext) :
    (handleEvent opts deps b handler event).1.deliveries =
      (handleEventTry opts deps b handler event).1.deliveries ∧
    (handleEvent opts deps b handler event).1.handleResults =
      (handleEventTry opts deps b handler event).1.handleResults ∧
    (handleEvent opts deps b handler event).1.handleInvocations =
      (handleEventTry opts deps b handler event).1.handleInvocations ∧
    (handleEvent opts deps b handler event).1.eventAfter =
      (handleEventTry opts deps b handler event).1.eventAfter := by
  unfold handleEvent
  rcases h : handleEventTry opts deps b handler event with ⟨eff, err⟩
  cases err <;> simp

/-- The error log written by `handleEvent` is exactly the message and
stack of the exception its try block raised, if any. -/
theorem handleEvent_errorLogs (opts : PluginOptions) (deps : ExternalDeps)
    (b : Backends) (handler : EmailHandler) (event : EventWithContext) :
    (handleEvent opts deps b handler event).1.errorLogs =
      (match (handleEventTry opts deps b handler event).2 with
       | some e => [(e.message, e.stack)]
       | none => []) := by
  have hlogs := handleEventTry_errorLogs opts deps b handler event
  unfold handleEvent
  rcases h : handleEventTry opts deps b handler event with ⟨eff, err⟩
  rw [h] at hlogs
  cases err <;> simp_all

/-- `handleEvent` never lets an exception escape: helper shared by the
claim proofs. -/
theorem handleEvent_snd_none (opts : PluginOptions) (deps : ExternalDeps)
    (b : Backends) (handler : EmailHandler) (event : EventWithContext) :
    (handleEvent opts deps b handler event).2 = none := by
  unfold handleEvent
  rcases h : handleEventTry opts deps b handler event with ⟨eff, err⟩
  cases err <;> simp

/-- If `handle` returned payload `p`, the rest of the dispatch is exactly
the delivery step on `p`. -/
theorem runHandleAndDeliver_handleResults_some (opts : PluginOptions) (b : Backends)
    (handleFn : EventWithContext → GlobalVars → Except Err (Option IntermediateEmailDetails))
    (event2 : EventWithContext) (p : IntermediateEmailDetails)
    (h : (runHandleAndDeliver opts b handleFn event2).1.handleResults = [some p]) :
    (runHandleAndDeliver opts b handleFn event2).1.deliveries = (deliverResult b p).1 ∧
    (runHandleAndDeliver opts b handleFn event2).2 = (deliverResult b p).2 := by
  cases hr : handleFn event2 opts.globalTemplateVars with
  | error e => simp [runHandleAndDeliver, hr] at h
  | ok r =>
    cases r with
    | none => simp [runHandleAndDeliver, hr] at h
    | some q =>
      simp only [runHandleAndDeliver, hr] at h ⊢
      simp at h
      subst h
      exact ⟨rfl, rfl⟩

/-- Lift of `runHandleAndDeliver_handleResults_some` to the try block. -/
theorem handleEventTry_handleResults_some (opts : PluginOptions) (deps : ExternalDeps)
    (b : Backends) (handler : EmailHandler) (event : EventWithContext)
    (p : IntermediateEmailDetails)
    (h : (handleEventTry opts deps b handler event).1.handleResults = [some p]) :
    (handleEventTry opts deps b handler event).1.deliveries = (deliverResult b p).1 ∧
    (handleEventTry opts deps b handler event).2 = (deliverResult b p).2 := by
  cases handler with
  | simple ev ty f =>
    simpa [handleEventTry] using
      runHandleAndDeliver_handleResults_some opts b f event p
        (by simpa [handleEventTry] using h)
  | withAsyncData ev ty loadFn f =>
    cases hl : loadFn (mkLoadCtx deps event) with
    | error e => simp [handleEventTry, hl] at h
    | ok d =>
      simpa [handleEventTry, hl] using
        runHandleAndDeliver_handleResults_some opts b f { event with data := some d } p
          (by simpa [handleEventTry, hl] using h)

/-- Lift of the payload inversion to `handleEvent` itself. -/
theorem handleEvent_handleResults_some (opts : PluginOptions) (deps : ExternalDeps)
    (b : Backends) (handler : EmailHandler) (event : EventWithContext)
    (p : IntermediateEmailDetails)
    (h : (handleEvent opts deps b handler event).1.handleResults = [some p]) :
    (handleEvent opts deps b handler event).1.deliveries = (deliverResult b p).1 ∧
    (handleEventTry opts deps b handler event).2 = (deliverResult b p).2 := by
  have heff := handleEvent_effects opts deps b handler event
  have h2 : (handleEventTry opts deps b handler event).1.handleResults = [some p] :=
    (heff.2.1).symm.trans h
  have inv := handleEventTry_handleResults_some opts deps b handler event p h2
  exact ⟨heff.1.trans inv.1, inv.2⟩

/-- If `handle` returned no payload, the dispatch makes no delivery and
raises nothing. -/
theorem runHandleAndDeliver_handleResults_none (opts : PluginOptions) (b : Backends)
    (handleFn : EventWithContext → GlobalVars → Except Err (Option IntermediateEmailDetails))
    (event2 : EventWithContext)
    (h : (runHandleAndDeliver opts b handleFn event2).1.handleResults = [none]) :
    (runHandleAndDeliver opts b handleFn event2).1.deliveries = [] ∧
    (runHandleAndDeliver opts b handleFn event2).2 = none := by
  cases hr : handleFn event2 opts.globalTemplateVars with
  | error e => simp [runHandleAndDeliver, hr] at h
  | ok r =>
    cases r with
    | none => simp [runHandleAndDeliver, hr]
    | some q => simp [runHandleAndDeliver, hr] at h

/-- Lift of the no-payload inversion to the try block. -/
theorem handleEventTry_handleResults_none (opts : PluginOptions) (deps : ExternalDeps)
    (b : Backends) (handler : EmailHandler) (event : EventWithContext)
    (h : (handleEventTry opts deps b handler event).1.handleResults = [none]) :
    (handleEventTry opts deps b handler event).1.deliveries = [] ∧
    (handleEventTry opts deps b handler event).2 = none := by
  cases handler with
  | simple ev ty f =>
    simpa [handleEventTry] using
      runHandleAndDeliver_handleResults_none opts b f event
        (by simpa [handleEventTry] using h)
  | withAsyncData ev ty loadFn f =>
    cases hl : loadFn (mkLoadCtx deps event) with
    | error e => simp [handleEventTry, hl] at h
    | ok d =>
      simpa [handleEventTry, hl] using
        runHandleAndDeliver_handleResults_none opts b f { event with data := some d }
          (by simpa [handleEventTry, hl] using h)

/-- Lift of the no-payload inversion to `handleEvent`: a declined dispatch
is silent. -/
theorem handleEvent_handleResults_none (opts : PluginOptions) (deps : ExternalDeps)
    (b : Backends) (handler : EmailHandler) (event : EventWithContext)
    (h : (handleEvent opts deps b handler event).1.handleResults = [none]) :
    (handleEvent opts deps b handler event).1.deliveries = [] ∧
    (handleEvent opts deps b handler event).1.errorLogs = [] := by
  have heff := handleEvent_effects opts deps b handler event
  have h2 : (handleEventTry opts deps b handler event).1.handleResults = [none] :=
    (heff.2.1).symm.trans h
  have inv := handleEventTry_handleResults_none opts deps b handler event h2
  constructor
  · exact heff.1.trans inv.1
  · have hlog := handleEvent_errorLogs opts deps b handler event
    rw [inv.2] at hlog
    simpa using hlog

/-- Every list of deliveries a dispatch produces is empty or the result of
one delivery step. -/
theorem runHandleAndDeliver_deliveries (opts : PluginOptions) (b : Backends)
    (handleFn : EventWithContext → GlobalVars → Except Err (Option IntermediateEmailDetails))
    (event2 : EventWithContext) :
    (runHandleAndDeliver opts b handleFn event2).1.deliveries = [] ∨
    ∃ p, (runHandleAndDeliver opts b handleFn event2).1.deliveries = (deliverResult b p).1 := by
  cases hr : handleFn event2 opts.globalTemplateVars with
  | error e => left; simp [runHandleAndDeliver, hr]
  | ok r =>
    cases r with
    | none => left; simp [runHandleAndDeliver, hr]
    | some q => right; exact ⟨q, by simp [runHandleAndDeliver, hr]⟩

/-- Lift of the deliveries-shape disjunction to `handleEvent`. -/
theorem handleEvent_deliveries_shape (opts : PluginOptions) (deps : ExternalDeps)
    (b : Backends) (handler : EmailHandler) (event : EventWithContext) :
    (handleEvent opts deps b handler event).1.deliveries = [] ∨
    ∃ p, (handleEvent opts deps b handler event).1.deliveries = (deliverResult b p).1 := by
  have heff := handleEvent_effects opts deps b handler event
  rw [heff.1]
  cases handler with
  | simple ev ty f =>
    simpa [handleEventTry] using runHandleAndDeliver_deliveries opts b f event
  | withAsyncData ev ty loadFn f =>
    cases hl : loadFn (mkLoadCtx deps event) with
    | error e => left; simp [handleEventTry, hl]
    | ok d =>
      simpa [handleEventTry, hl] using
        runHandleAndDeliver_deliveries opts b f { event with data := some d }

/-! ### Claim theorems -/

/-- C1: every failure raised inside `handleEvent`'s try block — async-data
loading, the handler body, or the delivery call — is caught by the catch
block, logged with the error message and stack trace, and no exception
ever escapes `handleEvent`; on a clean run no error is logged. -/
theorem handleEvent_catches_all (opts : PluginOptions) (deps : ExternalDeps)
    (b : Backends) (handler : EmailHandler) (event : EventWithContext) :
    (handleEvent opts deps b handler event).2 = none ∧
    (match (handleEventTry opts deps b handler event).2 with
     | some e =>
        (handleEvent opts deps b handler event).1.errorLogs = [(e.message, e.stack)]
     | none => (handleEvent opts deps b handler event).1.errorLogs = []) := by
  have hlogs := handleEvent_errorLogs opts deps b handler event
  constructor
  · unfold handleEvent
    rcases h : handleEventTry opts deps b handler event with ⟨eff, err⟩
    cases err <;> simp
  · cases h : (handleEventTry opts deps b handler event).2 <;> simp_all

/-- C4: when a withAsyncData handler's loader fails, the handler body is
never invoked, no delivery call is made, the failure is logged by the same
per-handler catch (message and stack), and nothing escapes `handleEvent`. -/
theorem loader_failure_skips_handler (opts : PluginOptions) (deps : ExternalDeps)
    (b : Backends) (ev ty : String)
    (loadFn : LoadDataContext → Except Err Nat)
    (handleFn : EventWithContext → GlobalVars → Except Err (Option IntermediateEmailDetails))
    (event : EventWithContext) (err : Err)
    (h : loadFn (mkLoadCtx deps event) = .error err) :
    (handleEvent opts deps b (.withAsyncData ev ty loadFn handleFn) event).1.handleInvocations = [] ∧
    (handleEvent opts deps b (.withAsyncData ev ty loadFn handleFn) event).1.deliveries = [] ∧
    (handleEvent opts deps b (.withAsyncData ev ty loadFn handleFn) event).1.errorLogs =
      [(err.message, err.stack)] ∧
    (handleEvent opts deps b (.withAsyncData ev ty loadFn handleFn) event).2 = none := by
  simp [handleEvent, handleEventTry, h]

/-- C2 counterexample: in inline (testing) delivery mode, a failure of
`testingProcessor.process` does NOT propagate to the caller awaiting
`handleEvent` — the call returns with no exception and the failure is only
logged — refuting the claim as stated. -/
theorem inline_failure_not_propagated_cex :
    (handleEvent testingOpts okDeps { jobQueue := none, testingProcessor := some failTp }
        payloadHandler sampleEvent).2 = none ∧
    (handleEvent testingOpts okDeps { jobQueue := none, testingProcessor := some failTp }
        payloadHandler sampleEvent).1.deliveries = [.inlineProcess samplePayload] ∧
    (handleEvent testingOpts okDeps { jobQueue := none, testingProcessor := some failTp }
        payloadHandler sampleEvent).1.errorLogs = [("boom", "trace")] :=
  ⟨rfl, rfl, rfl⟩

/-- C2 amended: in inline (testing) delivery mode, if
`testingProcessor.process` fails for an event whose handler returned a
payload, the failure is caught by `handleEvent`'s own catch block and
logged with its message and stack; it does not propagate to the caller
awaiting `handleEvent`, which returns normally. -/
theorem inline_process_failure_caught (opts : PluginOptions) (deps : ExternalDeps)
    (tp : EmailProcessor) (handler : EmailHandler) (event : EventWithContext)
    (p : IntermediateEmailDetails) (e : Err)
    (hres : (handleEvent opts deps { jobQueue := none, testingProcessor := some tp }
        handler event).1.handleResults = [some p])
    (hproc : tp.process p = .error e) :
    (handleEvent opts deps { jobQueue := none, testingProcessor := some tp }
        handler event).1.deliveries = [.inlineProcess p] ∧
    (handleEvent opts deps { jobQueue := none, testingProcessor := some tp }
        handler event).1.errorLogs = [(e.message, e.stack)] ∧
    (handleEvent opts deps { jobQueue := none, testingProcessor := some tp }
        handler event).2 = none := by
  have inv := handleEvent_handleResults_some opts deps
    { jobQueue := none, testingProcessor := some tp } handler event p hres
  have hdel : deliverResult { jobQueue := none, testingProcessor := some tp } p =
      ([.inlineProcess p], some e) := by
    simp [deliverResult, hproc]
  refine ⟨?_, ?_, handleEvent_snd_none _ _ _ _ _⟩
  · rw [inv.1, hdel]
  · have hlog := handleEvent_errorLogs opts deps
      { jobQueue := none, testingProcessor := some tp } handler event
    rw [inv.2, hdel] at hlog
    simpa using hlog

/-- Witness for the amended C2 at a concrete failing processor. -/
theorem inline_process_failure_caught_witness :
    (handleEvent testingOpts okDeps { jobQueue := none, testingProcessor := some failTp }
        payloadHandler sampleEvent).1.deliveries = [.inlineProcess samplePayload] ∧
    (handleEvent testingOpts okDeps { jobQueue := none, testingProcessor := some failTp }
        payloadHandler sampleEvent).1.errorLogs = [(sampleErr.message, sampleErr.stack)] ∧
    (handleEvent testingOpts okDeps { jobQueue := none, testingProcessor := some failTp }
        payloadHandler sampleEvent).2 = none :=
  inline_process_failure_caught testingOpts okDeps failTp payloadHandler sampleEvent
    samplePayload sampleErr rfl rfl

/-- C3 counterexample: with two handlers registered for the same event
type, `setupEventSubscribers` establishes two subscriptions although the
registry contains a single distinct event type, refuting
one-subscription-per-distinct-event-type. -/
theorem one_subscription_per_type_cex :
    (setupEventSubscribers dupOpts).length = 2 ∧
    ((dupOpts.handlers.map handlerEvent).dedup).length = 1 ∧
    (setupEventSubscribers dupOpts).length ≠
      ((dupOpts.handlers.map handlerEvent).dedup).length := by
  refine ⟨rfl, ?_, ?_⟩ <;> decide

/-- C3 amended: starting the dispatcher establishes exactly one event-bus
subscription per registered handler (not per distinct event type), in
registration order, each subscribing to that handler's event type; when
several handlers share a tag, each gets its own subscription. -/
theorem one_subscription_per_handler (opts : PluginOptions) :
    (setupEventSubscribers opts).length = opts.handlers.length ∧
    (setupEventSubscribers opts).map Subscription.eventType =
      opts.handlers.map handlerEvent := by
  constructor
  · simp [setupEventSubscribers]
  · simp [setupEventSubscribers, List.map_map]

/-- Witness for C4 at a concrete failing loader. -/
theorem loader_failure_skips_handler_witness :
    (handleEvent queuedOpts okDeps noBackends failingLoaderHandler sampleEvent).1.handleInvocations = [] ∧
    (handleEvent queuedOpts okDeps noBackends failingLoaderHandler sampleEvent).1.deliveries = [] ∧
    (handleEvent queuedOpts okDeps noBackends failingLoaderHandler sampleEvent).1.errorLogs =
      [(sampleErr.message, sampleErr.stack)] ∧
    (handleEvent queuedOpts okDeps noBackends failingLoaderHandler sampleEvent).2 = none :=
  loader_failure_skips_handler queuedOpts okDeps noBackends "order-placed" "OrderConfirmation"
    (fun _ => .error sampleErr) (fun _ _ => .ok (some samplePayload)) sampleEvent sampleErr rfl

/-- C5 counterexample: for a withAsyncData handler whose loader fails,
dispatching a matching event invokes the handler body zero times, not
exactly once, refuting the unconditional exactly-once claim. -/
theorem handle_exactly_once_cex :
    (handleEvent queuedOpts okDeps noBackends failingLoaderHandler
        sampleEvent).1.handleInvocations.length = 0 ∧
    (handleEvent queuedOpts okDeps noBackends failingLoaderHandler
        sampleEvent).1.handleInvocations.length ≠ 1 :=
  ⟨rfl, by decide⟩

/-- C5 amended: provided the async data loader (if the handler declares
one) succeeds, dispatching a matching event invokes the handler's handle
exactly once; the event's data field is populated before handle runs iff
the handler is the withAsyncData variant, while a simple handler's event
is left untouched by the dispatch; and when handle returns no payload the
dispatch terminates silently, with no delivery call and no error log, in
either delivery mode. -/
theorem handler_invocation_spec (opts : PluginOptions) (deps : ExternalDeps)
    (b : Backends) (handler : EmailHandler) (event : EventWithContext)
    (hload : match handler with
      | .simple .. => True
      | .withAsyncData _ _ loadFn _ => ∃ d, loadFn (mkLoadCtx deps event) = .ok d) :
    (handleEvent opts deps b handler event).1.handleInvocations.length = 1 ∧
    (match handler with
     | .simple .. =>
        (handleEvent opts deps b handler event).1.handleInvocations = [event] ∧
        (handleEvent opts deps b handler event).1.eventAfter = event
     | .withAsyncData _ _ loadFn _ =>
        ∃ d, loadFn (mkLoadCtx deps event) = .ok d ∧
          (handleEvent opts deps b handler event).1.handleInvocations =
            [{ event with data := some d }]) ∧
    ((handleEvent opts deps b handler event).1.handleResults = [none] →
      (handleEvent opts deps b handler event).1.deliveries = [] ∧
      (handleEvent opts deps b handler event).1.errorLogs = []) := by
  cases handler with
  | simple ev ty f =>
    have heff := handleEvent_effects opts deps b (.simple ev ty f) event
    have hfld := runHandleAndDeliver_fields opts b f event
    have hinv : (handleEvent opts deps b (.simple ev ty f) event).1.handleInvocations
        = [event] := by
      rw [heff.2.2.1]
      simpa [handleEventTry] using hfld.2.1
    have hafter : (handleEvent opts deps b (.simple ev ty f) event).1.eventAfter
        = event := by
      rw [heff.2.2.2]
      simpa [handleEventTry] using hfld.1
    exact ⟨by rw [hinv]; rfl, ⟨hinv, hafter⟩,
      fun hres => handleEvent_handleResults_none opts deps b (.simple ev ty f) event hres⟩
  | withAsyncData ev ty loadFn f =>
    obtain ⟨d, hd⟩ := hload
    have heff := handleEvent_effects opts deps b (.withAsyncData ev ty loadFn f) event
    have hfld := runHandleAndDeliver_fields opts b f { event with data := some d }
    have hinv : (handleEvent opts deps b (.withAsyncData ev ty loadFn f) event).1.handleInvocations
        = [{ event with data := some d }] := by
      rw [heff.2.2.1]
      simpa [handleEventTry, hd] using hfld.2.1
    exact ⟨by rw [hinv]; rfl, ⟨d, hd, hinv⟩,
      fun hres =>
        handleEvent_handleResults_none opts deps b (.withAsyncData ev ty loadFn f) event hres⟩

/-- Witness for the amended C5 at a concrete simple handler. -/
theorem handler_invocation_spec_witness :
    (handleEvent testingOpts okDeps noBackends payloadHandler
        sampleEvent).1.handleInvocations.length = 1 ∧
    ((handleEvent testingOpts okDeps noBackends payloadHandler
        sampleEvent).1.handleInvocations = [sampleEvent] ∧
     (handleEvent testingOpts okDeps noBackends payloadHandler
        sampleEvent).1.eventAfter = sampleEvent) := by
  have h := handler_invocation_spec testingOpts okDeps noBackends payloadHandler
    sampleEvent trivial
  exact ⟨h.1, h.2.1⟩

/-- C6: bootstrap activates exactly one delivery backend — the inline
testing processor exactly when the options are non-dev with the testing
transport, the job queue otherwise — decided solely from the options; and
under the bootstrap state every delivery call `handleEvent` makes goes to
the active backend, for every event. -/
theorem delivery_mode_exactly_one (deps : ExternalDeps) (opts : PluginOptions) :
    ((onVendureBootstrap deps opts).testingProcessor.isSome = wantsTestingProcessor opts) ∧
    ((onVendureBootstrap deps opts).jobQueue.isSome = !wantsTestingProcessor opts) ∧
    (∀ handler event d,
      d ∈ (handleEvent opts deps
            { jobQueue := (onVendureBootstrap deps opts).jobQueue,
              testingProcessor := (onVendureBootstrap deps opts).testingProcessor }
            handler event).1.deliveries →
        (((onVendureBootstrap deps opts).jobQueue.isSome = true →
            ∃ p, d = .queueAdd p) ∧
         ((onVendureBootstrap deps opts).testingProcessor.isSome = true →
            ∃ p, d = .inlineProcess p))) := by
  cases hw : wantsTestingProcessor opts with
  | true =>
    refine ⟨by simp [onVendureBootstrap, backendsOf, hw], by simp [onVendureBootstrap, backendsOf, hw], ?_⟩
    intro handler event d hm
    have hshape := handleEvent_deliveries_shape opts deps
      { jobQueue := (onVendureBootstrap deps opts).jobQueue,
        testingProcessor := (onVendureBootstrap deps opts).testingProcessor } handler event
    constructor
    · intro habs
      simp [onVendureBootstrap, backendsOf, hw] at habs
    · intro _
      rcases hshape with hnil | ⟨p, hp⟩
      · rw [hnil] at hm; simp at hm
      · rw [hp] at hm
        simp [deliverResult, onVendureBootstrap, backendsOf, hw] at hm
        exact ⟨p, hm⟩
  | false =>
    refine ⟨by simp [onVendureBootstrap, backendsOf, hw], by simp [onVendureBootstrap, backendsOf, hw], ?_⟩
    intro handler event d hm
    have hshape := handleEvent_deliveries_shape opts deps
      { jobQueue := (onVendureBootstrap deps opts).jobQueue,
        testingProcessor := (onVendureBootstrap deps opts).testingProcessor } handler event
    constructor
    · intro _
      rcases hshape with hnil | ⟨p, hp⟩
      · rw [hnil] at hm; simp at hm
      · rw [hp] at hm
        simp [deliverResult, onVendureBootstrap, backendsOf, hw] at hm
        exact ⟨p, hm⟩
    · intro habs
      simp [onVendureBootstrap, backendsOf, hw] at habs

/-- Witness for C6: in queued mode a concrete dispatched payload is
delivered as a queue job. -/
theorem delivery_mode_exactly_one_witness :
    ((onVendureBootstrap okDeps queuedOpts).testingProcessor.isSome =
      wantsTestingProcessor queuedOpts) ∧
    (∃ p, Delivery.queueAdd samplePayload = Delivery.queueAdd p) := by
  refine ⟨(delivery_mode_exactly_one okDeps queuedOpts).1, ?_⟩
  exact ((delivery_mode_exactly_one okDeps queuedOpts).2.2 payloadHandler sampleEvent
    (.queueAdd samplePayload) (by decide)).1 (by decide)

/-- C7: in queued mode bootstrap creates exactly one queue, named
"send-email" with concurrency 5, whose process callback forwards the
job's payload to the worker as an EmailWorkerMessage and completes the
job exactly when the worker send completes and fails it with the worker's
error otherwise; and every payload a handler produces is added to that
single queue. -/
theorem queued_mode_queue_spec (deps : ExternalDeps) (opts : PluginOptions)
    (hq : wantsTestingProcessor opts = false) :
    ∃ q, (onVendureBootstrap deps opts).jobQueue = some q ∧
      (onVendureBootstrap deps opts).testingProcessor = none ∧
      q.name = "send-email" ∧ q.concurrency = 5 ∧ q.add = deps.queueAdd ∧
      (∀ jd, q.processCb jd =
        ({ data := jd },
         match deps.workerSend { data := jd } with
         | .complete => .completed
         | .error err => .failed err)) ∧
      (∀ handler event p,
        (handleEvent opts deps { jobQueue := some q, testingProcessor := none }
            handler event).1.handleResults = [some p] →
        (handleEvent opts deps { jobQueue := some q, testingProcessor := none }
            handler event).1.deliveries = [.queueAdd p]) := by
  refine ⟨createQueue deps "send-email" 5 (fun jobData =>
      ({ data := jobData },
        match deps.workerSend { data := jobData } with
        | .complete => .completed
        | .error err => .failed err)), ?_, ?_, rfl, rfl, rfl, fun jd => rfl, ?_⟩
  · simp [onVendureBootstrap, backendsOf, hq]
  · simp [onVendureBootstrap, backendsOf, hq]
  · intro handler event p hres
    have inv := handleEvent_handleResults_some opts deps
      { jobQueue := some (createQueue deps "send-email" 5 (fun jobData =>
          ({ data := jobData },
            match deps.workerSend { data := jobData } with
            | .complete => .completed
            | .error err => .failed err))), testingProcessor := none }
      handler event p hres
    rw [inv.1]
    simp [deliverResult]

/-- Witness for C7 at concrete queued-mode options. -/
theorem queued_mode_queue_spec_witness :
    ∃ q, (onVendureBootstrap okDeps queuedOpts).jobQueue = some q ∧
      (onVendureBootstrap okDeps queuedOpts).testingProcessor = none ∧
      q.name = "send-email" ∧ q.concurrency = 5 ∧ q.add = okDeps.queueAdd ∧
      (∀ jd, q.processCb jd =
        ({ data := jd },
         match okDeps.workerSend { data := jd } with
         | .complete => .completed
         | .error err => .failed err)) ∧
      (∀ handler event p,
        (handleEvent queuedOpts okDeps { jobQueue := some q, testingProcessor := none }
            handler event).1.handleResults = [some p] →
        (handleEvent queuedOpts okDeps { jobQueue := some q, testingProcessor := none }
            handler event).1.deliveries = [.queueAdd p]) :=
  queued_mode_queue_spec okDeps queuedOpts rfl

/-- Helper: closing the plugin destroys an existing dev mailbox. -/
theorem close_destroys (st : PluginState) (m : DevMailbox)
    (hm : st.devMailbox = some m) :
    ∃ m2, (onVendureClose st).devMailbox = some m2 ∧ m2.destroyed = true :=
  ⟨{ m with destroyed := true }, by simp [onVendureClose, hm], rfl⟩

/-- C8: the dev mailbox is created, served, and wired (its mock-event
callback routes each synthetic event through the plugin's `handleEvent`
with the bootstrap backends) iff the options are dev-mode options with a
defined mailboxPort; and whenever it was created, `onVendureClose`
invokes its destroy. -/
theorem dev_mailbox_lifecycle (deps : ExternalDeps) (opts : PluginOptions) :
    ((onVendureBootstrap deps opts).devMailbox.isSome =
      (isDevModeOptions opts && opts.mailboxPort.isSome)) ∧
    (∀ m, (onVendureBootstrap deps opts).devMailbox = some m →
      m.served = true ∧ m.destroyed = false ∧
      m.mockEventCallback =
        some (fun h e => handleEvent opts deps (backendsOf deps opts) h e)) ∧
    (∀ m, (onVendureBootstrap deps opts).devMailbox = some m →
      ∃ m2, (onVendureClose (onVendureBootstrap deps opts)).devMailbox = some m2 ∧
        m2.destroyed = true) := by
  refine ⟨?_, ?_, fun m hm => close_destroys _ m hm⟩
  · cases hc : (isDevModeOptions opts && opts.mailboxPort.isSome) <;>
      simp [onVendureBootstrap, hc]
  · intro m hm
    cases hc : (isDevModeOptions opts && opts.mailboxPort.isSome) with
    | false => simp [onVendureBootstrap, hc] at hm
    | true =>
      simp [onVendureBootstrap, hc] at hm
      subst hm
      exact ⟨rfl, rfl, rfl⟩

/-- Witness for C8 at dev-mode options with a mailbox port. -/
theorem dev_mailbox_lifecycle_witness :
    ((onVendureBootstrap okDeps devOpts).devMailbox.isSome = true) ∧
    (∃ m2, (onVendureClose (onVendureBootstrap okDeps devOpts)).devMailbox = some m2 ∧
      m2.destroyed = true) := by
  have h := dev_mailbox_lifecycle okDeps devOpts
  exact ⟨h.1.trans rfl, h.2.2 _ rfl⟩

/-- C9: for a withAsyncData handler with a successful loader, enrichment
updates the received event object itself — the event after dispatch
differs from the received one only in its data field, now holding the
loaded value — and the handler body is invoked on exactly that enriched
event object. -/
theorem async_data_enriched_in_place (opts : PluginOptions) (deps : ExternalDeps)
    (b : Backends) (ev ty : String)
    (loadFn : LoadDataContext → Except Err Nat)
    (handleFn : EventWithContext → GlobalVars → Except Err (Option IntermediateEmailDetails))
    (event : EventWithContext) (d : Nat)
    (hd : loadFn (mkLoadCtx deps event) = .ok d) :
    (handleEvent opts deps b (.withAsyncData ev ty loadFn handleFn) event).1.eventAfter =
      { event with data := some d } ∧
    (handleEvent opts deps b (.withAsyncData ev ty loadFn handleFn) event).1.eventAfter.tag =
      event.tag ∧
    (handleEvent opts deps b (.withAsyncData ev ty loadFn handleFn) event).1.eventAfter.ctx =
      event.ctx ∧
    (handleEvent opts deps b (.withAsyncData ev ty loadFn handleFn) event).1.eventAfter.data =
      some d ∧
    (handleEvent opts deps b (.withAsyncData ev ty loadFn handleFn) event).1.handleInvocations =
      [(handleEvent opts deps b (.withAsyncData ev ty loadFn handleFn) event).1.eventAfter] := by
  have heff := handleEvent_effects opts deps b (.withAsyncData ev ty loadFn handleFn) event
  have hfld := runHandleAndDeliver_fields opts b handleFn { event with data := some d }
  have hafter : (handleEvent opts deps b (.withAsyncData ev ty loadFn handleFn) event).1.eventAfter =
      { event with data := some d } := by
    rw [heff.2.2.2]
    simpa [handleEventTry, hd] using hfld.1
  have hinv : (handleEvent opts deps b (.withAsyncData ev ty loadFn handleFn) event).1.handleInvocations =
      [{ event with data := some d }] := by
    rw [heff.2.2.1]
    simpa [handleEventTry, hd] using hfld.2.1
  exact ⟨hafter, by rw [hafter], by rw [hafter], by rw [hafter], by rw [hinv, hafter]⟩

/-- Witness for C9 at a concrete succeeding loader. -/
theorem async_data_enriched_in_place_witness :
    (handleEvent testingOpts okDeps noBackends okLoaderHandler sampleEvent).1.eventAfter =
      { sampleEvent with data := some 42 } ∧
    (handleEvent testingOpts okDeps noBackends okLoaderHandler sampleEvent).1.eventAfter.tag =
      sampleEvent.tag ∧
    (handleEvent testingOpts okDeps noBackends okLoaderHandler sampleEvent).1.eventAfter.ctx =
      sampleEvent.ctx ∧
    (handleEvent testingOpts okDeps noBackends okLoaderHandler sampleEvent).1.eventAfter.data =
      some 42 ∧
    (handleEvent testingOpts okDeps noBackends okLoaderHandler sampleEvent).1.handleInvocations =
      [(handleEvent testingOpts okDeps noBackends okLoaderHandler sampleEvent).1.eventAfter] :=
  async_data_enriched_in_place testingOpts okDeps noBackends "order-placed" "OrderConfirmation"
    (fun _ => .ok 42) (fun _ _ => .ok (some samplePayload)) sampleEvent 42 rfl

/-- C10: when neither delivery backend exists, a dispatch whose handler
returned a payload is silently discarded: `handleEvent` returns normally
with no delivery call, no error log, and no exception. -/
theorem no_backend_silent_discard (opts : PluginOptions) (deps : ExternalDeps)
    (handler : EmailHandler) (event : EventWithContext) (p : IntermediateEmailDetails)
    (h : (handleEvent opts deps noBackends handler event).1.handleResults = [some p]) :
    (handleEvent opts deps noBackends handler event).1.deliveries = [] ∧
    (handleEvent opts deps noBackends handler event).1.errorLogs = [] ∧
    (handleEvent opts deps noBackends handler event).2 = none := by
  have inv := handleEvent_handleResults_some opts deps noBackends handler event p h
  have hdel : deliverResult noBackends p = ([], none) := by
    simp [deliverResult, noBackends]
  refine ⟨?_, ?_, handleEvent_snd_none _ _ _ _ _⟩
  · rw [inv.1, hdel]
  · have hlog := handleEvent_errorLogs opts deps noBackends handler event
    rw [inv.2, hdel] at hlog
    simpa using hlog

/-- Witness for C10 at a concrete payload-producing handler. -/
theorem no_backend_silent_discard_witness :
    (handleEvent testingOpts okDeps noBackends payloadHandler sampleEvent).1.deliveries = [] ∧
    (handleEvent testingOpts okDeps noBackends payloadHandler sampleEvent).1.errorLogs = [] ∧
    (handleEvent testingOpts okDeps noBackends payloadHandler sampleEvent).2 = none :=
  no_backend_silent_discard testingOpts okDeps payloadHandler sampleEvent samplePayload rfl

end EmailPluginModel
